import Mathlib

/-
Verification of the multi-room climate simulation and scheduling engine of
the climate-control-IoT repository (src/sys_status.py), as a shallow
embedding in Lean 4.  Floats are modelled as exact rationals, Python ints
as unbounded integers, deques with maxlen as lists with eviction from the
front, and code that can raise an exception returns Except.
-/

namespace ClimateControl

/-- Simulation constants from the top of src/sys_status.py. -/
def INITIAL_TEMP_CELSIUS : ℚ := 20.0

/-- Initial humidity constant from src/sys_status.py. -/
def INITIAL_HUMIDITY_PERCENT : ℚ := 50.0

/-- Ambient temperature target from src/sys_status.py. -/
def AMBIENT_TEMP_TARGET : ℚ := 22.0

/-- Ambient humidity target from src/sys_status.py. -/
def AMBIENT_HUMIDITY_TARGET : ℚ := 45.0

/-- Heating rate per tick from src/sys_status.py. -/
def HEAT_RATE : ℚ := 0.2

/-- AC boost cooling rate per tick from src/sys_status.py. -/
def COOL_RATE_AC : ℚ := 0.3

/-- AC boost humidity reduction rate per tick from src/sys_status.py. -/
def AC_HUMIDITY_REDUCTION_RATE : ℚ := 0.2

/-- Ambient temperature drift rate of the viewed room, from src/sys_status.py. -/
def AMBIENT_DRIFT_RATE_TEMP : ℚ := 0.05

/-- Ambient temperature drift rate of non-viewed rooms, from src/sys_status.py. -/
def BACKGROUND_AMBIENT_DRIFT_RATE_TEMP : ℚ := 0.02

/-- Ambient humidity drift rate of the viewed room, from src/sys_status.py. -/
def AMBIENT_DRIFT_RATE_HUMIDITY : ℚ := 0.1

/-- Ambient humidity drift rate of non-viewed rooms, from src/sys_status.py. -/
def BACKGROUND_AMBIENT_DRIFT_RATE_HUMIDITY : ℚ := 0.04

/-- Tick interval in seconds, from src/sys_status.py. -/
def SIMULATION_TICK_INTERVAL_SECONDS : ℤ := 1

/-- History cap (deque maxlen) from src/sys_status.py. -/
def GRAPH_DATA_POINTS : ℕ := 60

/-- ScheduledEvent record, mirroring the event dictionaries built by
schedule_event_prompt in src/sys_status.py:
start_time_iso, action, params (with key duration_minutes), triggered,
description. -/
structure ScheduledEvent where
  start_time_iso : String
  action : String
  duration_minutes : Option ℤ
  triggered : Bool
  description : String
deriving DecidableEq, Repr

/-- RoomState record, mirroring the per-room state dictionary returned by
the method get_default_room_state in src/sys_status.py.  Deques are
modelled as lists evicting from the front. -/
structure RoomState where
  temp : ℚ
  humidity : ℚ
  heat_on : Bool
  ac_boost_on : Bool
  ac_boost_timer : ℤ
  timed_heat_active : Bool
  timed_heat_remaining_seconds : ℤ
  scheduled_events : List ScheduledEvent
  time_data : List ℤ
  temp_data : List ℚ
  humidity_data : List ℚ
  simulation_time_elapsed : ℤ
deriving DecidableEq, Repr

/-- Default room state, from the method that builds the default state
dictionary in src/sys_status.py. -/
def get_default_room_state : RoomState :=
  { temp := INITIAL_TEMP_CELSIUS
    humidity := INITIAL_HUMIDITY_PERCENT
    heat_on := false
    ac_boost_on := false
    ac_boost_timer := 0
    timed_heat_active := false
    timed_heat_remaining_seconds := 0
    scheduled_events := []
    time_data := []
    temp_data := []
    humidity_data := []
    simulation_time_elapsed := 0 }

/-- Append to a bounded deque with the given maxlen: the new element goes
to the back and the oldest entries fall off the front. -/
def deque_append (cap : ℕ) (l : List α) (x : α) : List α :=
  let grown := l ++ [x]
  grown.drop (grown.length - cap)

/-- Rebuild a bounded deque from a plain list, as the Python constructor
deque(lst, maxlen=cap) does: keep the most recent cap entries, in order. -/
def deque_of_list (cap : ℕ) (l : List α) : List α :=
  l.drop (l.length - cap)

/-- Model of the external collaborator datetime.fromisoformat: a
well-formed timestamp string (modelled as a nonempty decimal digit string)
parses to an integer time; a malformed string fails to parse, which in
Python raises ValueError. -/
def fromisoformat (iso : String) : Option ℤ :=
  if iso.length > 0 && iso.toList.all Char.isDigit then
    some ((iso.toList.foldl (fun a c => a * 10 + (c.toNat - 48)) (0 : ℕ) : ℕ) : ℤ)
  else none

/-- Manual heat activation, from the method toggle_heat_on in
src/sys_status.py: a no-op while timed heat or AC boost is active,
otherwise turns heat_on on. -/
def toggle_heat_on (s : RoomState) : RoomState :=
  if s.timed_heat_active || s.ac_boost_on then s
  else if !s.heat_on then { s with heat_on := true }
  else s

/-- Manual heat deactivation, from the method toggle_heat_off in
src/sys_status.py: a no-op while timed heat is active, otherwise turns
heat_on off. -/
def toggle_heat_off (s : RoomState) : RoomState :=
  if s.timed_heat_active then s
  else if s.heat_on then { s with heat_on := false }
  else s

/-- AC boost activation, from the method activate_ac_boost in
src/sys_status.py: a no-op while any heating is active, and also a no-op
when a boost is already running; otherwise starts a 30 second boost. -/
def activate_ac_boost (s : RoomState) : RoomState :=
  if s.heat_on || s.timed_heat_active then s
  else if !s.ac_boost_on then { s with ac_boost_on := true, ac_boost_timer := 30 }
  else s

/-- Timed heat toggle, from the method toggle_timed_heat in
src/sys_status.py, with the user-entered duration in minutes as an
argument: cancels a running timed heat, refuses to start over manual heat
or AC boost, and otherwise starts timed heat for the given duration,
setting heat_on as well. -/
def toggle_timed_heat (duration_minutes : ℤ) (s : RoomState) : RoomState :=
  if s.timed_heat_active then
    { s with timed_heat_active := false, heat_on := false,
             timed_heat_remaining_seconds := 0 }
  else if s.heat_on || s.ac_boost_on then s
  else
    { s with timed_heat_active := true,
             timed_heat_remaining_seconds := duration_minutes * 60,
             heat_on := true }

/-- Scheduled event execution, from the method execute_scheduled_event in
src/sys_status.py: only the action start_timed_heat has an effect; the
duration parameter defaults to 10 minutes when missing; a due event that
conflicts with an already running operation is skipped without any state
change. -/
def execute_scheduled_event (s : RoomState) (e : ScheduledEvent) : RoomState :=
  if e.action = "start_timed_heat" then
    let duration := e.duration_minutes.getD 10
    if s.heat_on || s.ac_boost_on then s
    else
      { s with timed_heat_active := true,
               timed_heat_remaining_seconds := duration * 60,
               heat_on := true }
  else s

/-- Scheduled event processing of one room inside one tick, from the
simulation loop in src/sys_status.py: the loop walks the index range from
len(scheduled_events)-1 down to 0; an untriggered event whose parsed start
time has passed is executed and then marked triggered in place; parsing
the timestamp of any untriggered event can raise, which propagates out as
an error.  The natural number argument is one past the highest index still
to visit, so the initial call passes the list length. -/
def process_scheduled_events (now : ℤ) (s : RoomState) : ℕ → Except String RoomState
  | 0 => .ok s
  | i + 1 =>
    match s.scheduled_events.get? i with
    | none => process_scheduled_events now s i
    | some e =>
      if e.triggered then process_scheduled_events now s i
      else
        match fromisoformat e.start_time_iso with
        | none => .error "ValueError"
        | some t =>
          if t ≤ now then
            let s1 := execute_scheduled_event s e
            let s2 := { s1 with scheduled_events :=
                          s1.scheduled_events.set i { e with triggered := true } }
            process_scheduled_events now s2 i
          else process_scheduled_events now s i

/-- Timer processing of one room inside one tick, from the simulation loop
in src/sys_status.py: an active timed heat forces heat_on and counts down,
expiring to an all-off state at zero; an active AC boost switches plain
manual heat off and counts down, expiring to off at zero. -/
def process_timers (s : RoomState) : RoomState :=
  let s :=
    if s.timed_heat_active then
      let s := { s with heat_on := true,
                        timed_heat_remaining_seconds :=
                          s.timed_heat_remaining_seconds - SIMULATION_TICK_INTERVAL_SECONDS }
      if s.timed_heat_remaining_seconds ≤ 0 then
        { s with timed_heat_active := false, heat_on := false,
                 timed_heat_remaining_seconds := 0 }
      else s
    else s
  if s.ac_boost_on then
    let s := if s.heat_on && !s.timed_heat_active then { s with heat_on := false } else s
    let s := { s with ac_boost_timer := s.ac_boost_timer - SIMULATION_TICK_INTERVAL_SECONDS }
    if s.ac_boost_timer ≤ 0 then
      { s with ac_boost_on := false, ac_boost_timer := 0 }
    else s
  else s

/-- Absolute value as the Python builtin computes it. -/
def pyabs (q : ℚ) : ℚ := if q < 0 then -q else q

/-- Binary maximum as the Python builtin computes it. -/
def pymax (a b : ℚ) : ℚ := if a ≤ b then b else a

/-- Binary minimum as the Python builtin computes it. -/
def pymin (a b : ℚ) : ℚ := if a ≤ b then a else b

/-- Clamp a value into a closed interval, as max(lo, min(hi, x)) in
src/sys_status.py. -/
def clamp (lo hi x : ℚ) : ℚ := pymax lo (pymin hi x)

/-- Temperature change of one room in one tick before clamping, from the
simulation loop in src/sys_status.py: direct heating or cooling effect,
then ambient drift toward the target at the viewed or background rate,
then random noise for the viewed room only (the drawn noise value is an
explicit argument here). -/
def temp_change (viewed : Bool) (noise_t : ℚ) (s : RoomState) : ℚ :=
  let tc : ℚ := 0
  let tc := if s.heat_on then tc + HEAT_RATE
            else if s.ac_boost_on then tc - COOL_RATE_AC
            else tc
  let drift_rate_temp :=
    if viewed then AMBIENT_DRIFT_RATE_TEMP else BACKGROUND_AMBIENT_DRIFT_RATE_TEMP
  let tc :=
    if s.temp < AMBIENT_TEMP_TARGET then
      tc + drift_rate_temp * pyabs (AMBIENT_TEMP_TARGET - s.temp) * 0.15
    else if AMBIENT_TEMP_TARGET < s.temp then
      tc - drift_rate_temp * pyabs (s.temp - AMBIENT_TEMP_TARGET) * 0.15
    else tc
  if viewed then tc + noise_t else tc

/-- Humidity change of one room in one tick before clamping, from the
simulation loop in src/sys_status.py: the direct effect applies only in
the AC boost branch of the if/elif, then ambient drift, then noise for
the viewed room only. -/
def humidity_change (viewed : Bool) (noise_h : ℚ) (s : RoomState) : ℚ :=
  let hc : ℚ := 0
  let hc := if s.heat_on then hc
            else if s.ac_boost_on then hc - AC_HUMIDITY_REDUCTION_RATE
            else hc
  let drift_rate_humidity :=
    if viewed then AMBIENT_DRIFT_RATE_HUMIDITY else BACKGROUND_AMBIENT_DRIFT_RATE_HUMIDITY
  let hc :=
    if s.humidity < AMBIENT_HUMIDITY_TARGET then
      hc + drift_rate_humidity * pyabs (AMBIENT_HUMIDITY_TARGET - s.humidity) * 0.15
    else if AMBIENT_HUMIDITY_TARGET < s.humidity then
      hc - drift_rate_humidity * pyabs (s.humidity - AMBIENT_HUMIDITY_TARGET) * 0.15
    else hc
  if viewed then hc + noise_h else hc

/-- Climate update of one room in one tick, from the simulation loop in
src/sys_status.py: add the computed changes, clamp temperature to [5, 35]
and humidity to [10, 90], and, only for the viewed room, advance the
elapsed time axis and append the new sample to the three bounded history
deques. -/
def apply_climate (viewed : Bool) (noise_t noise_h : ℚ) (s : RoomState) : RoomState :=
  let tc := temp_change viewed noise_t s
  let hc := humidity_change viewed noise_h s
  let s := { s with temp := clamp 5.0 35.0 (s.temp + tc),
                    humidity := clamp 10.0 90.0 (s.humidity + hc) }
  if viewed then
    let elapsed := s.simulation_time_elapsed + SIMULATION_TICK_INTERVAL_SECONDS
    { s with simulation_time_elapsed := elapsed,
             time_data := deque_append GRAPH_DATA_POINTS s.time_data elapsed,
             temp_data := deque_append GRAPH_DATA_POINTS s.temp_data s.temp,
             humidity_data := deque_append GRAPH_DATA_POINTS s.humidity_data s.humidity }
  else s

/-- Full processing of one room in one tick of the simulation loop in
src/sys_status.py: scheduled events, then timers, then the climate and
history update.  An exception while processing the room propagates. -/
def tick_room (now : ℤ) (viewed : Bool) (noise_t noise_h : ℚ) (s : RoomState) :
    Except String RoomState :=
  match process_scheduled_events now s s.scheduled_events.length with
  | .error msg => .error msg
  | .ok s1 => .ok (apply_climate viewed noise_t noise_h (process_timers s1))

/-- One tick of the simulation loop in src/sys_status.py over the whole
room collection, in order: each room is processed with tick_room, the
viewed room being the one whose name equals current; there is no
try/except around a room, so an exception while processing one room
aborts the remaining rooms of the tick. -/
def tick_all (now : ℤ) (current : String) (noise : String → ℚ × ℚ) :
    List (String × RoomState) → Except String (List (String × RoomState))
  | [] => .ok []
  | (room_name, s) :: rest =>
    match tick_room now (room_name = current) (noise room_name).1 (noise room_name).2 s with
    | .error msg => .error msg
    | .ok s1 =>
      match tick_all now current noise rest with
      | .error msg => .error msg
      | .ok rest1 => .ok ((room_name, s1) :: rest1)

/-- Iterated ticks of a single room, with a noise draw per tick. -/
def tick_room_iter (now : ℤ) (viewed : Bool) (noise : ℕ → ℚ × ℚ) :
    ℕ → RoomState → Except String RoomState
  | 0, s => .ok s
  | k + 1, s =>
    match tick_room now viewed (noise k).1 (noise k).2 s with
    | .error msg => .error msg
    | .ok s1 => tick_room_iter now viewed noise k s1

/-- Persisted per-room document, mirroring the dictionary stored per room
by the save method in src/sys_status.py: every RoomState field, with the
history deques written out as plain lists and the scheduled events kept as
plain records. -/
structure RoomDoc where
  temp : ℚ
  humidity : ℚ
  heat_on : Bool
  ac_boost_on : Bool
  ac_boost_timer : ℤ
  timed_heat_active : Bool
  timed_heat_remaining_seconds : ℤ
  scheduled_events : List ScheduledEvent
  time_data : List ℤ
  temp_data : List ℚ
  humidity_data : List ℚ
  simulation_time_elapsed : ℤ
deriving DecidableEq, Repr

/-- Serialization of one room, from the save method in src/sys_status.py:
a shallow copy of the state with the deques converted to lists. -/
def serialize_room (s : RoomState) : RoomDoc :=
  { temp := s.temp
    humidity := s.humidity
    heat_on := s.heat_on
    ac_boost_on := s.ac_boost_on
    ac_boost_timer := s.ac_boost_timer
    timed_heat_active := s.timed_heat_active
    timed_heat_remaining_seconds := s.timed_heat_remaining_seconds
    scheduled_events := s.scheduled_events
    time_data := s.time_data
    temp_data := s.temp_data
    humidity_data := s.humidity_data
    simulation_time_elapsed := s.simulation_time_elapsed }

/-- Serialization of the whole room collection, from the save method in
src/sys_status.py: room names with their serialized states, in order. -/
def serialize_room_states (states : List (String × RoomState)) : List (String × RoomDoc) :=
  states.map fun p => (p.1, serialize_room p.2)

/-- Deserialization of one room document, from the constructor of
SystemStatusScreen in src/sys_status.py: the loaded values are merged over
a fresh default state (the document carries every key here, so its values
win throughout), the three history lists are rebuilt as bounded deques
with maxlen GRAPH_DATA_POINTS, keeping the most recent entries, and the
scheduled events list is kept.  No range validation is applied to the
stored temperature or humidity. -/
def deserialize_room (doc : RoomDoc) : RoomState :=
  { temp := doc.temp
    humidity := doc.humidity
    heat_on := doc.heat_on
    ac_boost_on := doc.ac_boost_on
    ac_boost_timer := doc.ac_boost_timer
    timed_heat_active := doc.timed_heat_active
    timed_heat_remaining_seconds := doc.timed_heat_remaining_seconds
    scheduled_events := doc.scheduled_events
    time_data := deque_of_list GRAPH_DATA_POINTS doc.time_data
    temp_data := deque_of_list GRAPH_DATA_POINTS doc.temp_data
    humidity_data := deque_of_list GRAPH_DATA_POINTS doc.humidity_data
    simulation_time_elapsed := doc.simulation_time_elapsed }

/-- Loading of the whole room collection, from the constructor of
SystemStatusScreen in src/sys_status.py: for each name in the room list,
deserialize the persisted document when one is present, and fall back to
the default room state otherwise. -/
def load_room_states (rooms : List String) (persisted : List (String × RoomDoc)) :
    List (String × RoomState) :=
  rooms.map fun room_name =>
    (room_name,
     match List.lookup room_name persisted with
     | some doc => deserialize_room doc
     | none => get_default_room_state)

/-- Derived due test: an event is due at a time when its timestamp parses
to a time that has passed. -/
def is_due (now : ℤ) (e : ScheduledEvent) : Bool :=
  match fromisoformat e.start_time_iso with
  | some t => decide (t ≤ now)
  | none => false

/-- Every untriggered event of the room carries a timestamp that parses. -/
def events_parseable (s : RoomState) : Prop :=
  ∀ e ∈ s.scheduled_events, e.triggered = false →
    (fromisoformat e.start_time_iso).isSome = true

/-- Corrected mutual exclusion invariant of the control flags, as the code
actually maintains it: AC boost excludes both heat_on and timed heat, and
an active timed heat always carries heat_on with it, so heat_on and
timed_heat_active are simultaneously true while timed heat runs. -/
def mode_inv (s : RoomState) : Bool :=
  (!s.ac_boost_on || (!s.heat_on && !s.timed_heat_active)) &&
  (!s.timed_heat_active || s.heat_on)

deriving instance DecidableEq for Except

/-- Count of the three raw mode flags that are set, the quantity the
stated mutual exclusion invariant bounds by one. -/
def mode_flags_count (s : RoomState) : ℕ :=
  (if s.heat_on then 1 else 0) + (if s.ac_boost_on then 1 else 0) +
  (if s.timed_heat_active then 1 else 0)

/-- Success test for an Except value. -/
def exc_is_ok {ε α : Type} : Except ε α → Bool
  | .ok _ => true
  | .error _ => false

/-- Interpretation of the claim wording for the scheduled event order,
written from the words of the spec rather than from the code: walk the
scheduled events in original insertion order, applying the side effect of
each untriggered due event and marking it triggered. -/
def process_events_in_order (now : ℤ) (s : RoomState) :
    List ScheduledEvent → RoomState × List ScheduledEvent
  | [] => (s, [])
  | e :: rest =>
    if e.triggered = false ∧ is_due now e = true then
      let s1 := execute_scheduled_event s e
      let p := process_events_in_order now s1 rest
      (p.1, { e with triggered := true } :: p.2)
    else
      let p := process_events_in_order now s rest
      (p.1, e :: p.2)

/-- Whole in-order event pass over a room, per the spec wording. -/
def tick_events_in_order (now : ℤ) (s : RoomState) : RoomState :=
  let p := process_events_in_order now s s.scheduled_events
  { p.1 with scheduled_events := p.2 }

/-- Room whose schedule holds one malformed event (its timestamp does not
parse), as a persisted document could contain. -/
def c2_bad_room : RoomState :=
  { get_default_room_state with scheduled_events :=
      [{ start_time_iso := "tomorrow", action := "start_timed_heat",
         duration_minutes := some 5, triggered := false, description := "bad" }] }

/-- Room with two untriggered events both due at time 100, inserted with
duration 5 minutes first and duration 3 minutes second. -/
def c3_room : RoomState :=
  { get_default_room_state with scheduled_events :=
      [{ start_time_iso := "50", action := "start_timed_heat",
         duration_minutes := some 5, triggered := false, description := "A" },
       { start_time_iso := "60", action := "start_timed_heat",
         duration_minutes := some 3, triggered := false, description := "B" }] }

/-- Room sitting exactly on the ambient targets: a quiet non-viewed tick
keeps it unchanged. -/
def c4_room : RoomState :=
  { get_default_room_state with temp := 22, humidity := 45 }

/-- Untriggered event due at time 5 used for the idempotence check. -/
def c5_event : ScheduledEvent :=
  { start_time_iso := "5", action := "start_timed_heat",
    duration_minutes := some 2, triggered := false, description := "due event" }

/-- Room already heating whose schedule holds one due event. -/
def c5_room : RoomState :=
  { get_default_room_state with heat_on := true, scheduled_events := [c5_event] }

/-- The heating room after one event pass: the conflicting due event was
skipped yet marked triggered. -/
def c5_after : RoomState :=
  { c5_room with scheduled_events := [{ c5_event with triggered := true }] }

/-- Non-default room used to instantiate the drift formula. -/
def c8_room : RoomState :=
  { get_default_room_state with temp := 30, humidity := 60, heat_on := true }

/-- Persisted room document carrying a temperature and humidity outside
the documented legal ranges. -/
def out_of_range_doc : RoomDoc :=
  { temp := 100
    humidity := 95
    heat_on := false
    ac_boost_on := false
    ac_boost_timer := 0
    timed_heat_active := false
    timed_heat_remaining_seconds := 0
    scheduled_events := []
    time_data := []
    temp_data := []
    humidity_data := []
    simulation_time_elapsed := 0 }

/-- State of the out-of-range room after the next quiet non-viewed tick:
both values are pulled back to the clamp bounds. -/
def c10_result : RoomState :=
  { deserialize_room out_of_range_doc with temp := 35, humidity := 90 }

/-- Persisted room document whose history is longer than the cap. -/
def c7_doc : RoomDoc :=
  { out_of_range_doc with time_data := List.replicate 61 7 }

/-- Helper: setting an index leaves every other index of a list unchanged. -/
theorem get?_set_ne {α : Type} (a : α) :
    ∀ (l : List α) (i j : ℕ), i ≠ j → (l.set i a).get? j = l.get? j := by
  intro l
  induction l with
  | nil => intro i j _; cases i <;> rfl
  | cons x xs ih =>
    intro i j hij
    cases i with
    | zero =>
      cases j with
      | zero => exact absurd rfl hij
      | succ j => rfl
    | succ i =>
      cases j with
      | zero => rfl
      | succ j => simpa using ih i j (fun h => hij (by simp [h]))

/-- Helper: setting an index inside the range stores the new element there. -/
theorem get?_set_self {α : Type} (a : α) :
    ∀ (l : List α) (i : ℕ), i < l.length → (l.set i a).get? i = some a := by
  intro l
  induction l with
  | nil => intro i h; simp at h
  | cons x xs ih =>
    intro i h
    cases i with
    | zero => rfl
    | succ i => simpa using ih i (by simpa using h)

/-- Helper: a successful index lookup implies the index is in range. -/
theorem lt_length_of_get?_eq_some {α : Type} {l : List α} {i : ℕ} {a : α}
    (h : l.get? i = some a) : i < l.length := by
  induction l generalizing i with
  | nil => simp at h
  | cons x xs ih =>
    cases i with
    | zero => simp
    | succ i => simpa using ih (by simpa using h)

/-- Helper: a successful index lookup yields a member of the list. -/
theorem mem_of_get?_eq_some {α : Type} {l : List α} {i : ℕ} {a : α}
    (h : l.get? i = some a) : a ∈ l := by
  induction l generalizing i with
  | nil => simp at h
  | cons x xs ih =>
    cases i with
    | zero => simp at h; simp [h]
    | succ i => exact List.mem_cons_of_mem x (ih (by simpa using h))

/-- Helper: membership in a list after a set comes from the old list or is
the new element. -/
theorem mem_set_cases {α : Type} {l : List α} {i : ℕ} {a x : α}
    (h : x ∈ l.set i a) : x ∈ l ∨ x = a := by
  induction l generalizing i with
  | nil => simp at h
  | cons y ys ih =>
    cases i with
    | zero =>
      rcases List.mem_cons.mp h with h1 | h1
      · exact Or.inr h1
      · exact Or.inl (List.mem_cons_of_mem y h1)
    | succ i =>
      rcases List.mem_cons.mp h with h1 | h1
      · exact Or.inl (by simp [h1])
      · rcases ih h1 with h2 | h2
        · exact Or.inl (List.mem_cons_of_mem y h2)
        · exact Or.inr h2

/-- Helper: the climate update never changes the control flags, the
timers or the scheduled events of a room. -/
theorem apply_climate_preserves (v : Bool) (nt nh : ℚ) (s : RoomState) :
    (apply_climate v nt nh s).heat_on = s.heat_on ∧
    (apply_climate v nt nh s).ac_boost_on = s.ac_boost_on ∧
    (apply_climate v nt nh s).timed_heat_active = s.timed_heat_active ∧
    (apply_climate v nt nh s).ac_boost_timer = s.ac_boost_timer ∧
    (apply_climate v nt nh s).timed_heat_remaining_seconds = s.timed_heat_remaining_seconds ∧
    (apply_climate v nt nh s).scheduled_events = s.scheduled_events := by
  cases v <;> exact ⟨rfl, rfl, rfl, rfl, rfl, rfl⟩

/-- Helper: clamp keeps a value inside the interval bounds. -/
theorem clamp_bounds (lo hi x : ℚ) (h : lo ≤ hi) :
    lo ≤ clamp lo hi x ∧ clamp lo hi x ≤ hi := by
  unfold clamp pymax pymin
  split_ifs <;> constructor <;> linarith

/-- Helper: the climate update clamps temperature into [5, 35] and
humidity into [10, 90]. -/
theorem apply_climate_bounds (v : Bool) (nt nh : ℚ) (s : RoomState) :
    5.0 ≤ (apply_climate v nt nh s).temp ∧ (apply_climate v nt nh s).temp ≤ 35.0 ∧
    10.0 ≤ (apply_climate v nt nh s).humidity ∧ (apply_climate v nt nh s).humidity ≤ 90.0 := by
  have htemp : (apply_climate v nt nh s).temp =
      clamp 5.0 35.0 (s.temp + temp_change v nt s) := by
    cases v <;> rfl
  have hhum : (apply_climate v nt nh s).humidity =
      clamp 10.0 90.0 (s.humidity + humidity_change v nh s) := by
    cases v <;> rfl
  rw [htemp, hhum]
  have h1 := clamp_bounds 5.0 35.0 (s.temp + temp_change v nt s) (by norm_num)
  have h2 := clamp_bounds 10.0 90.0 (s.humidity + humidity_change v nh s) (by norm_num)
  exact ⟨h1.1, h1.2, h2.1, h2.2⟩

/-- Helper: the timer update never changes the scheduled events, the
climate values or the history of a room. -/
theorem process_timers_preserves (s : RoomState) :
    (process_timers s).scheduled_events = s.scheduled_events ∧
    (process_timers s).temp = s.temp ∧
    (process_timers s).humidity = s.humidity := by
  unfold process_timers
  dsimp only
  split_ifs <;> exact ⟨rfl, rfl, rfl⟩

/-- Helper: executing one scheduled event never changes the scheduled
events list, the climate values or the history of a room. -/
theorem execute_scheduled_event_preserves (s : RoomState) (e : ScheduledEvent) :
    (execute_scheduled_event s e).scheduled_events = s.scheduled_events ∧
    (execute_scheduled_event s e).temp = s.temp ∧
    (execute_scheduled_event s e).humidity = s.humidity := by
  unfold execute_scheduled_event
  split
  · split
    · exact ⟨rfl, rfl, rfl⟩
    · exact ⟨rfl, rfl, rfl⟩
  · exact ⟨rfl, rfl, rfl⟩

/-- Helper: an index below the length of a list has an element. -/
theorem exists_get?_of_lt {α : Type} :
    ∀ (l : List α) (i : ℕ), i < l.length → ∃ a, l.get? i = some a := by
  intro l
  induction l with
  | nil => intro i h; simp at h
  | cons x xs ih =>
    intro i h
    cases i with
    | zero => exact ⟨x, rfl⟩
    | succ i => simpa using ih i (by simpa using h)

/-- Helper: event processing keeps the number of scheduled events. -/
theorem process_scheduled_events_length (now : ℤ) :
    ∀ (n : ℕ) (s s' : RoomState), process_scheduled_events now s n = .ok s' →
      s'.scheduled_events.length = s.scheduled_events.length := by
  intro n
  induction n with
  | zero =>
    intro s s' h
    cases h
    rfl
  | succ n ih =>
    intro s s' h
    unfold process_scheduled_events at h
    split at h
    · exact ih _ _ h
    · rename_i e hg
      split at h
      · exact ih _ _ h
      · split at h
        · cases h
        · rename_i t hp
          split at h
          · have hlen := ih _ _ h
            rw [hlen]
            simp [(execute_scheduled_event_preserves s e).1]
          · exact ih _ _ h

/-- Helper: event processing acts on each list position independently: the
positions below the counter holding an untriggered due event get marked
triggered, every other position is untouched. -/
theorem process_scheduled_events_get? (now : ℤ) :
    ∀ (n : ℕ) (s s' : RoomState), process_scheduled_events now s n = .ok s' →
      ∀ (j : ℕ) (e : ScheduledEvent), s.scheduled_events.get? j = some e →
        s'.scheduled_events.get? j =
          some (if j < n ∧ e.triggered = false ∧ is_due now e = true
                then { e with triggered := true } else e) := by
  intro n
  induction n with
  | zero =>
    intro s s' h j e hj
    cases h
    rw [if_neg (fun hcon => Nat.not_lt_zero j hcon.1)]
    exact hj
  | succ n ih =>
    intro s s' h j e hj
    unfold process_scheduled_events at h
    split at h
    · rename_i hg
      have hjlt : j < s.scheduled_events.length := lt_length_of_get?_eq_some hj
      have hnlen : s.scheduled_events.length ≤ n := by
        by_contra hcon
        obtain ⟨a, ha⟩ := exists_get?_of_lt s.scheduled_events n (Nat.lt_of_not_le hcon)
        rw [ha] at hg
        cases hg
      have hjn2 : j < n := Nat.lt_of_lt_of_le hjlt hnlen
      have hiff : (j < n) ↔ (j < n + 1) :=
        iff_of_true hjn2 (Nat.lt_succ_of_lt hjn2)
      rw [ih _ _ h j e hj]
      exact congrArg some (if_congr (and_congr_left' hiff) rfl rfl)
    · rename_i e' hg
      split at h
      · rename_i htr
        by_cases hjn : j = n
        · subst hjn
          have hee : e = e' := by rw [hj] at hg; cases hg; rfl
          subst hee
          rw [ih _ _ h j e hj]
          have htr2 : e.triggered = true := by
            cases hht : e.triggered
            · rw [hht] at htr; exact absurd htr (by simp)
            · rfl
          simp [htr2]
        · have hiff : (j < n) ↔ (j < n + 1) := by
            rw [Nat.lt_succ_iff_lt_or_eq]
            simp [hjn]
          rw [ih _ _ h j e hj]
          exact congrArg some (if_congr (and_congr_left' hiff) rfl rfl)
      · rename_i htr
        split at h
        · cases h
        · rename_i t hp
          have hbe' : e'.triggered = false := by
            cases hht : e'.triggered
            · rfl
            · rw [hht] at htr; exact absurd rfl htr
          split at h
          · rename_i hdue
            have hnlt : n < s.scheduled_events.length := lt_length_of_get?_eq_some hg
            by_cases hjn : j = n
            · subst hjn
              have hee : e = e' := by rw [hj] at hg; cases hg; rfl
              subst hee
              have hset : ({ execute_scheduled_event s e with
                  scheduled_events := (execute_scheduled_event s e).scheduled_events.set j
                    { e with triggered := true } } : RoomState).scheduled_events.get? j =
                  some { e with triggered := true } := by
                have hlen2 : j < (execute_scheduled_event s e).scheduled_events.length := by
                  rw [(execute_scheduled_event_preserves s e).1]; exact hnlt
                exact get?_set_self _ _ _ hlen2
              rw [ih _ _ h j { e with triggered := true } hset]
              have hid : is_due now e = true := by
                simp [is_due, hp]
                exact hdue
              simp [hbe', hid, Nat.lt_succ_self]
            · have hset : ({ execute_scheduled_event s e' with
                  scheduled_events := (execute_scheduled_event s e').scheduled_events.set n
                    { e' with triggered := true } } : RoomState).scheduled_events.get? j =
                  some e := by
                rw [get?_set_ne _ _ _ _ (fun hc => hjn hc.symm)]
                rw [(execute_scheduled_event_preserves s e').1]
                exact hj
              have hiff : (j < n) ↔ (j < n + 1) := by
                rw [Nat.lt_succ_iff_lt_or_eq]
                simp [hjn]
              rw [ih _ _ h j e hset]
              exact congrArg some (if_congr (and_congr_left' hiff) rfl rfl)
          · rename_i hdue
            by_cases hjn : j = n
            · subst hjn
              have hee : e = e' := by rw [hj] at hg; cases hg; rfl
              subst hee
              rw [ih _ _ h j e hj]
              have hid : is_due now e = false := by
                simp [is_due, hp]
                omega
              simp [hid]
            · have hiff : (j < n) ↔ (j < n + 1) := by
                rw [Nat.lt_succ_iff_lt_or_eq]
                simp [hjn]
              rw [ih _ _ h j e hj]
              exact congrArg some (if_congr (and_congr_left' hiff) rfl rfl)

/-- Helper: when every scheduled event of the room is already triggered,
event processing does nothing at all. -/
theorem process_scheduled_events_all_triggered (now : ℤ) :
    ∀ (n : ℕ) (s : RoomState),
      (∀ e ∈ s.scheduled_events, e.triggered = true) →
      process_scheduled_events now s n = .ok s := by
  intro n
  induction n with
  | zero => intro s _; rfl
  | succ n ih =>
    intro s hall
    unfold process_scheduled_events
    cases hg : s.scheduled_events.get? n with
    | none => exact ih s hall
    | some e =>
      have htr := hall e (mem_of_get?_eq_some hg)
      simp only [htr, if_true]
      exact ih s hall

/-- Helper: when every untriggered event parses, event processing cannot
raise. -/
theorem process_scheduled_events_ok (now : ℤ) :
    ∀ (n : ℕ) (s : RoomState), events_parseable s →
      ∃ s', process_scheduled_events now s n = .ok s' := by
  intro n
  induction n with
  | zero => intro s _; exact ⟨s, rfl⟩
  | succ n ih =>
    intro s hpars
    unfold process_scheduled_events
    cases hg : s.scheduled_events.get? n with
    | none => exact ih s hpars
    | some e =>
      cases htr : e.triggered with
      | true =>
        simp only [htr, if_true]
        exact ih s hpars
      | false =>
        simp only [htr, Bool.false_eq_true, if_false]
        have hsome := hpars e (mem_of_get?_eq_some hg) htr
        cases hp : fromisoformat e.start_time_iso with
        | none => rw [hp] at hsome; cases hsome
        | some t =>
          by_cases hdue : t ≤ now
          · simp only [hdue, if_true]
            apply ih
            intro x hx hxtr
            rcases mem_set_cases (by
              simpa [(execute_scheduled_event_preserves s e).1] using hx) with hmem | heq
            · exact hpars x hmem hxtr
            · rw [heq] at hxtr
              cases hxtr
          · simp only [hdue, if_false]
            exact ih s hpars

/-- Helper: executing one scheduled event preserves the mode invariant. -/
theorem mode_inv_execute (s : RoomState) (e : ScheduledEvent)
    (h : mode_inv s = true) : mode_inv (execute_scheduled_event s e) = true := by
  unfold execute_scheduled_event
  split_ifs with h1 h2
  · exact h
  · have hac : s.ac_boost_on = false := by
      cases hx : s.ac_boost_on
      · rfl
      · rw [hx] at h2; simp at h2
    simp [mode_inv, hac]
  · exact h

/-- Helper: event processing preserves the mode invariant. -/
theorem mode_inv_process_scheduled_events (now : ℤ) :
    ∀ (n : ℕ) (s s' : RoomState), mode_inv s = true →
      process_scheduled_events now s n = .ok s' → mode_inv s' = true := by
  intro n
  induction n with
  | zero =>
    intro s s' h hok
    cases hok
    exact h
  | succ n ih =>
    intro s s' h hok
    unfold process_scheduled_events at hok
    split at hok
    · exact ih _ _ h hok
    · rename_i e hg
      split at hok
      · exact ih _ _ h hok
      · split at hok
        · cases hok
        · rename_i t hp
          split at hok
          · refine ih _ _ ?_ hok
            exact mode_inv_execute s e h
          · exact ih _ _ h hok

/-- Helper: timer processing preserves the mode invariant. -/
theorem mode_inv_process_timers (s : RoomState) (h : mode_inv s = true) :
    mode_inv (process_timers s) = true := by
  unfold process_timers
  dsimp only
  split_ifs <;> simp_all [mode_inv]

/-- Helper: the climate update preserves the mode invariant. -/
theorem mode_inv_apply_climate (v : Bool) (nt nh : ℚ) (s : RoomState)
    (h : mode_inv s = true) : mode_inv (apply_climate v nt nh s) = true := by
  have : mode_inv (apply_climate v nt nh s) = mode_inv s := by cases v <;> rfl
  rw [this]
  exact h

/-- Helper: a full room tick preserves the mode invariant. -/
theorem mode_inv_tick_room (now : ℤ) (v : Bool) (nt nh : ℚ) (s s' : RoomState)
    (h : mode_inv s = true) (hok : tick_room now v nt nh s = .ok s') :
    mode_inv s' = true := by
  unfold tick_room at hok
  split at hok
  · cases hok
  · rename_i s1 hev
    cases hok
    exact mode_inv_apply_climate _ _ _ _
      (mode_inv_process_timers _ (mode_inv_process_scheduled_events now _ s s1 h hev))

/-- Helper: the manual heat on request preserves the mode invariant. -/
theorem mode_inv_toggle_heat_on (s : RoomState) (h : mode_inv s = true) :
    mode_inv (toggle_heat_on s) = true := by
  unfold toggle_heat_on
  split_ifs <;> simp_all [mode_inv]

/-- Helper: the manual heat off request preserves the mode invariant. -/
theorem mode_inv_toggle_heat_off (s : RoomState) (h : mode_inv s = true) :
    mode_inv (toggle_heat_off s) = true := by
  unfold toggle_heat_off
  split_ifs <;> simp_all [mode_inv]

/-- Helper: the AC boost request preserves the mode invariant. -/
theorem mode_inv_activate_ac_boost (s : RoomState) (h : mode_inv s = true) :
    mode_inv (activate_ac_boost s) = true := by
  unfold activate_ac_boost
  split_ifs <;> simp_all [mode_inv]

/-- Helper: the timed heat toggle preserves the mode invariant. -/
theorem mode_inv_toggle_timed_heat (m : ℤ) (s : RoomState) (h : mode_inv s = true) :
    mode_inv (toggle_timed_heat m s) = true := by
  unfold toggle_timed_heat
  split_ifs <;> simp_all [mode_inv]

/-- Helper: timer processing of a room in timed heating with no AC boost:
the countdown decrements by one tick and the mode expires exactly when the
decremented count reaches zero. -/
theorem process_timers_timed (s : RoomState) (ht : s.timed_heat_active = true)
    (ha : s.ac_boost_on = false) :
    (process_timers s).ac_boost_on = false ∧
    (process_timers s).scheduled_events = s.scheduled_events ∧
    (if s.timed_heat_remaining_seconds - 1 ≤ 0 then
       (process_timers s).timed_heat_active = false ∧
       (process_timers s).heat_on = false ∧
       (process_timers s).timed_heat_remaining_seconds = 0
     else
       (process_timers s).timed_heat_active = true ∧
       (process_timers s).heat_on = true ∧
       (process_timers s).timed_heat_remaining_seconds =
         s.timed_heat_remaining_seconds - 1) := by
  unfold process_timers
  dsimp only
  simp only [ht, ha, SIMULATION_TICK_INTERVAL_SECONDS]
  split_ifs <;> simp_all

/-- Helper: iterated full ticks of a room in timed heating with no AC
boost and no scheduled events count the remaining seconds down by exactly
one per tick, and the mode together with its heat_on flag switches off
exactly when the count reaches zero. -/
theorem tick_room_iter_countdown (now : ℤ) (v : Bool) (noise : ℕ → ℚ × ℚ) :
    ∀ (k : ℕ) (r : ℤ) (s : RoomState),
      s.scheduled_events = [] → s.ac_boost_on = false →
      s.timed_heat_active = true → s.heat_on = true →
      s.timed_heat_remaining_seconds = r → 1 ≤ r → (k : ℤ) ≤ r →
      (tick_room_iter now v noise k s).map
        (fun x => (x.timed_heat_active, x.heat_on, x.timed_heat_remaining_seconds)) =
      .ok (decide ((k : ℤ) < r), decide ((k : ℤ) < r), r - k) := by
  intro k
  induction k with
  | zero =>
    intro r s hev ha ht hh hr h1 hk
    have h0r : (0 : ℤ) < r := by omega
    simp [tick_room_iter, Except.map, ht, hh, hr, h0r]
  | succ k ih =>
    intro r s hev ha ht hh hr h1 hk
    have htick : tick_room now v (noise k).1 (noise k).2 s =
        .ok (apply_climate v (noise k).1 (noise k).2 (process_timers s)) := by
      unfold tick_room
      rw [hev]
      rfl
    have hfields := process_timers_timed s ht ha
    rw [hr] at hfields
    have hclim := apply_climate_preserves v (noise k).1 (noise k).2 (process_timers s)
    set s2 := apply_climate v (noise k).1 (noise k).2 (process_timers s) with hs2
    have hs2ev : s2.scheduled_events = [] := by
      rw [hclim.2.2.2.2.2, hfields.2.1, hev]
    have hs2ac : s2.ac_boost_on = false := by
      rw [hclim.2.1, hfields.1]
    have hstep : tick_room_iter now v noise (k + 1) s = tick_room_iter now v noise k s2 := by
      conv_lhs => rw [tick_room_iter]
      rw [htick]
    rw [hstep]
    by_cases hend : r - 1 ≤ 0
    · have hre : r = 1 := by omega
      have hk0 : k = 0 := by
        have : (k : ℤ) + 1 ≤ 1 := by
          rw [hre] at hk
          exact_mod_cast hk
        omega
      subst hk0
      have hfin := hfields.2.2
      rw [if_pos (by omega)] at hfin
      have hs2t : s2.timed_heat_active = false := by rw [hclim.2.2.1]; exact hfin.1
      have hs2h : s2.heat_on = false := by rw [hclim.1]; exact hfin.2.1
      have hs2r : s2.timed_heat_remaining_seconds = 0 := by
        rw [hclim.2.2.2.2.1]; exact hfin.2.2
      simp [tick_room_iter, Except.map, hs2t, hs2h, hs2r, hre]
    · have hfin := hfields.2.2
      rw [if_neg hend] at hfin
      have hs2t : s2.timed_heat_active = true := by rw [hclim.2.2.1]; exact hfin.1
      have hs2h : s2.heat_on = true := by rw [hclim.1]; exact hfin.2.1
      have hs2r : s2.timed_heat_remaining_seconds = r - 1 := by
        rw [hclim.2.2.2.2.1, hfin.2.2]
      have := ih (r - 1) s2 hs2ev hs2ac hs2t hs2h hs2r (by omega) (by omega)
      rw [this]
      have hdeq : (decide ((k : ℤ) < r - 1)) = (decide (((k : ℕ) + 1 : ℤ) < r)) := by
        by_cases hc : (k : ℤ) < r - 1
        · have hc2 : ((k : ℕ) + 1 : ℤ) < r := by omega
          simp [hc, hc2]
        · have hc2 : ¬(((k : ℕ) + 1 : ℤ) < r) := by push_cast at hc ⊢; omega
          simp [hc, hc2]
      rw [hdeq]
      congr 2
      push_cast
      ring_nf

/-- C1 counterexample: the claim says at most one of the three flags
heat_on, ac_boost_on, timed_heat_active is true after every arbiter
operation, but starting timed heat on the default room leaves both
heat_on and timed_heat_active set. -/
theorem C1_counterexample :
    ¬ mode_flags_count (toggle_timed_heat 1 get_default_room_state) ≤ 1 := by decide

/-- C1 amended: the invariant the code actually maintains: AC boost
excludes both heat flags, timed heat always carries heat_on, and the three
modes counted as manual heat (heat_on without timed heat), AC boost and
timed heat are mutually exclusive.  The invariant holds at the default
state and is preserved by every arbiter operation, by scheduled event
execution and by every completed room tick. -/
theorem C1_amended_mode_exclusion :
    mode_inv get_default_room_state = true ∧
    (∀ s, mode_inv s = true → mode_inv (toggle_heat_on s) = true) ∧
    (∀ s, mode_inv s = true → mode_inv (toggle_heat_off s) = true) ∧
    (∀ s, mode_inv s = true → mode_inv (activate_ac_boost s) = true) ∧
    (∀ m s, mode_inv s = true → mode_inv (toggle_timed_heat m s) = true) ∧
    (∀ s e, mode_inv s = true → mode_inv (execute_scheduled_event s e) = true) ∧
    (∀ now v nt nh s s', mode_inv s = true →
       tick_room now v nt nh s = .ok s' → mode_inv s' = true) ∧
    (∀ s, mode_inv s = true →
       (if s.heat_on && !s.timed_heat_active then 1 else 0) +
       (if s.ac_boost_on then 1 else 0) +
       (if s.timed_heat_active then 1 else 0) ≤ 1) := by
  refine ⟨by decide, mode_inv_toggle_heat_on, mode_inv_toggle_heat_off,
          mode_inv_activate_ac_boost, mode_inv_toggle_timed_heat,
          fun s e h => mode_inv_execute s e h,
          fun now v nt nh s s' h hok => mode_inv_tick_room now v nt nh s s' h hok, ?_⟩
  intro s h
  cases hh : s.heat_on <;> cases ha : s.ac_boost_on <;>
    cases ht : s.timed_heat_active <;> simp_all [mode_inv]

/-- C1 witness: the amended invariant applied at the default room after an
AC boost request, and the amended at-most-one-mode count there. -/
theorem C1_amended_mode_exclusion_witness :
    mode_inv (activate_ac_boost get_default_room_state) = true ∧
    (if (activate_ac_boost get_default_room_state).heat_on &&
        !(activate_ac_boost get_default_room_state).timed_heat_active then 1 else 0) +
    (if (activate_ac_boost get_default_room_state).ac_boost_on then 1 else 0) +
    (if (activate_ac_boost get_default_room_state).timed_heat_active then 1 else 0) ≤ 1 :=
  ⟨C1_amended_mode_exclusion.2.2.2.1 get_default_room_state (by decide),
   C1_amended_mode_exclusion.2.2.2.2.2.2.2 (activate_ac_boost get_default_room_state)
     (C1_amended_mode_exclusion.2.2.2.1 get_default_room_state (by decide))⟩

/-- C4: for every room state and every tick that completes, the updated
temperature lies in [5.0, 35.0] and the updated humidity in [10.0, 90.0],
whatever modes are active, whether or not the room is the viewed one, and
whatever noise values are drawn; applied tick after tick this gives the
bounds after every tick of every finite sequence. -/
theorem C4_clamping (now : ℤ) (v : Bool) (nt nh : ℚ) (s s' : RoomState)
    (h : tick_room now v nt nh s = .ok s') :
    5.0 ≤ s'.temp ∧ s'.temp ≤ 35.0 ∧ 10.0 ≤ s'.humidity ∧ s'.humidity ≤ 90.0 := by
  unfold tick_room at h
  split at h
  · cases h
  · cases h
    exact apply_climate_bounds _ _ _ _

/-- C4 witness: a concrete completed tick whose output the theorem bounds. -/
theorem C4_clamping_witness :
    tick_room 0 false 0 0 c4_room = .ok c4_room ∧
    5.0 ≤ c4_room.temp ∧ c4_room.temp ≤ 35.0 ∧
    10.0 ≤ c4_room.humidity ∧ c4_room.humidity ≤ 90.0 := by
  have h : tick_room 0 false 0 0 c4_room = .ok c4_room := by
    with_unfolding_all decide
  exact ⟨h, C4_clamping 0 false 0 0 _ _ h⟩

/-- C9 counterexample: the claim says that whenever no heating mode is
active a boost request sets the timer to 30, but a request issued while a
boost is already running (here with 29 seconds left) is a no-op that
leaves the timer at 29. -/
theorem C9_counterexample :
    (process_timers (activate_ac_boost get_default_room_state)).heat_on = false ∧
    (process_timers (activate_ac_boost get_default_room_state)).timed_heat_active = false ∧
    ¬ (activate_ac_boost (process_timers
        (activate_ac_boost get_default_room_state))).ac_boost_timer = 30 := by decide

/-- C9 amended: a boost request during manual or timed heating is a
complete no-op; a request with no mode at all active starts a 30 second
boost and leaves the heating flags untouched; and a request during an
already running boost is also a complete no-op. -/
theorem C9_ac_boost_arbitration :
    (∀ s, s.heat_on = true ∨ s.timed_heat_active = true → activate_ac_boost s = s) ∧
    (∀ s, s.heat_on = false → s.timed_heat_active = false → s.ac_boost_on = false →
       activate_ac_boost s = { s with ac_boost_on := true, ac_boost_timer := 30 }) ∧
    (∀ s, s.heat_on = false → s.timed_heat_active = false → s.ac_boost_on = true →
       activate_ac_boost s = s) := by
  refine ⟨?_, ?_, ?_⟩ <;> intro s
  · intro h
    unfold activate_ac_boost
    rcases h with h | h <;> simp [h]
  · intro h1 h2 h3
    unfold activate_ac_boost
    simp [h1, h2, h3]
  · intro h1 h2 h3
    unfold activate_ac_boost
    simp [h1, h2, h3]

/-- C9 witness: the no-op during manual heat and the successful start on
the idle default room. -/
theorem C9_ac_boost_arbitration_witness :
    activate_ac_boost { get_default_room_state with heat_on := true } =
      { get_default_room_state with heat_on := true } ∧
    activate_ac_boost get_default_room_state =
      { get_default_room_state with ac_boost_on := true, ac_boost_timer := 30 } :=
  ⟨C9_ac_boost_arbitration.1 _ (Or.inl rfl),
   C9_ac_boost_arbitration.2.1 _ rfl rfl rfl⟩

/-- C10: deserialization copies the stored temperature and humidity with
no range validation, so the concrete out-of-range document loads into a
state that violates the documented ranges, and the bounds are
re-established only by the clamping of the next completed tick. -/
theorem C10_no_load_validation :
    (∀ doc : RoomDoc, (deserialize_room doc).temp = doc.temp ∧
       (deserialize_room doc).humidity = doc.humidity) ∧
    ((deserialize_room out_of_range_doc).temp = 100 ∧
     ¬ (deserialize_room out_of_range_doc).temp ≤ 35.0 ∧
     (deserialize_room out_of_range_doc).humidity = 95 ∧
     ¬ (deserialize_room out_of_range_doc).humidity ≤ 90.0) ∧
    (∀ now v nt nh s',
       tick_room now v nt nh (deserialize_room out_of_range_doc) = .ok s' →
       5.0 ≤ s'.temp ∧ s'.temp ≤ 35.0 ∧ 10.0 ≤ s'.humidity ∧ s'.humidity ≤ 90.0) := by
  refine ⟨fun doc => ⟨rfl, rfl⟩, by norm_num [deserialize_room, out_of_range_doc], ?_⟩
  intro now v nt nh s' h
  unfold tick_room at h
  split at h
  · cases h
  · cases h
    exact apply_climate_bounds _ _ _ _

/-- C10 witness: the out-of-range loaded room, after one quiet non-viewed
tick, lands exactly on the clamp bounds. -/
theorem C10_no_load_validation_witness :
    tick_room 0 false 0 0 (deserialize_room out_of_range_doc) = .ok c10_result ∧
    5.0 ≤ c10_result.temp ∧ c10_result.temp ≤ 35.0 ∧
    10.0 ≤ c10_result.humidity ∧ c10_result.humidity ≤ 90.0 := by
  have h : tick_room 0 false 0 0 (deserialize_room out_of_range_doc) = .ok c10_result := by
    norm_num [tick_room, process_scheduled_events, process_timers, apply_climate,
      temp_change, humidity_change, clamp, pymax, pymin, pyabs, deserialize_room,
      out_of_range_doc, c10_result, deque_of_list, get_default_room_state,
      AMBIENT_TEMP_TARGET, AMBIENT_HUMIDITY_TARGET, HEAT_RATE, COOL_RATE_AC,
      AC_HUMIDITY_REDUCTION_RATE, AMBIENT_DRIFT_RATE_TEMP,
      BACKGROUND_AMBIENT_DRIFT_RATE_TEMP, AMBIENT_DRIFT_RATE_HUMIDITY,
      BACKGROUND_AMBIENT_DRIFT_RATE_HUMIDITY, SIMULATION_TICK_INTERVAL_SECONDS]
  exact ⟨h, C10_no_load_validation.2.2 0 false 0 0 _ h⟩

/-- C5: scheduled events fire at most once: a triggered event survives an
event pass untouched, an untriggered due event gets marked triggered by
the pass, a room whose events are all triggered passes through event
processing completely unchanged, and executing an event against a room
with a conflicting active operation changes nothing at all while the loop
still marks it triggered. -/
theorem C5_schedule_idempotence :
    (∀ now s s', process_scheduled_events now s s.scheduled_events.length = .ok s' →
       ∀ j e, s.scheduled_events.get? j = some e →
         (e.triggered = true → s'.scheduled_events.get? j = some e) ∧
         (e.triggered = false → is_due now e = true →
            s'.scheduled_events.get? j = some { e with triggered := true })) ∧
    (∀ now n s, (∀ e ∈ s.scheduled_events, e.triggered = true) →
       process_scheduled_events now s n = .ok s) ∧
    (∀ s e, s.heat_on = true ∨ s.ac_boost_on = true →
       execute_scheduled_event s e = s) := by
  refine ⟨?_, process_scheduled_events_all_triggered, ?_⟩
  · intro now s s' hok j e hj
    have hchar := process_scheduled_events_get? now _ s s' hok j e hj
    constructor
    · intro htr
      rw [hchar]
      simp [htr]
    · intro htr hdue
      rw [hchar]
      have hjlt : j < s.scheduled_events.length := lt_length_of_get?_eq_some hj
      simp [htr, hdue, hjlt]
  · intro s e h
    unfold execute_scheduled_event
    split
    · split
      · rfl
      · rename_i hcon
        rcases h with h | h <;> rw [h] at hcon <;> simp at hcon
    · rfl

/-- C5 witness: in a room already heating with one due event, the pass
marks the event triggered, a room of triggered events is a fixed point of
event processing, and executing the due event against the heating room is
a no-op. -/
theorem C5_schedule_idempotence_witness :
    c5_after.scheduled_events.get? 0 = some { c5_event with triggered := true } ∧
    process_scheduled_events 10 c5_after 1 = .ok c5_after ∧
    execute_scheduled_event c5_room c5_event = c5_room := by
  have hok : process_scheduled_events 10 c5_room c5_room.scheduled_events.length =
      .ok c5_after := by with_unfolding_all decide
  refine ⟨?_, ?_, ?_⟩
  · exact (C5_schedule_idempotence.1 10 c5_room c5_after hok 0 c5_event (by decide)).2
      (by decide) (by decide)
  · exact C5_schedule_idempotence.2.1 10 1 c5_after (by decide)
  · exact C5_schedule_idempotence.2.2 c5_room c5_event (Or.inl (by decide))

/-- C6: starting timed heat for m minutes in an idle room with an empty
schedule turns the mode and heat_on on with m*60 seconds remaining; after
k completed ticks (k at most m*60) exactly m*60-k seconds remain, the
countdown decreasing by exactly one tick interval per tick, and after
exactly m*60 ticks the mode and heat_on are off with zero remaining. -/
theorem C6_timed_heat_lifecycle (s0 : RoomState) (m now : ℤ) (v : Bool)
    (noise : ℕ → ℚ × ℚ) (k : ℕ)
    (hh : s0.heat_on = false) (ha : s0.ac_boost_on = false)
    (ht : s0.timed_heat_active = false) (hev : s0.scheduled_events = [])
    (hm : 1 ≤ m) (hk : (k : ℤ) ≤ m * 60) :
    (toggle_timed_heat m s0).timed_heat_active = true ∧
    (toggle_timed_heat m s0).heat_on = true ∧
    (toggle_timed_heat m s0).timed_heat_remaining_seconds = m * 60 ∧
    (tick_room_iter now v noise k (toggle_timed_heat m s0)).map
      (fun x => (x.timed_heat_active, x.heat_on, x.timed_heat_remaining_seconds)) =
    .ok (decide ((k : ℤ) < m * 60), decide ((k : ℤ) < m * 60), m * 60 - k) := by
  have hstart : toggle_timed_heat m s0 =
      { s0 with timed_heat_active := true,
                timed_heat_remaining_seconds := m * 60, heat_on := true } := by
    unfold toggle_timed_heat
    simp [ht, hh, ha]
  refine ⟨by rw [hstart], by rw [hstart], by rw [hstart], ?_⟩
  refine tick_room_iter_countdown now v noise k (m * 60) (toggle_timed_heat m s0)
    ?_ ?_ ?_ ?_ ?_ (by omega) hk
  · rw [hstart]; exact hev
  · rw [hstart]; exact ha
  · rw [hstart]
  · rw [hstart]
  · rw [hstart]

/-- C6 witness: one minute of timed heat on the default room, after
exactly 60 ticks, has expired with zero seconds remaining. -/
theorem C6_timed_heat_lifecycle_witness :
    (toggle_timed_heat 1 get_default_room_state).timed_heat_active = true ∧
    (toggle_timed_heat 1 get_default_room_state).heat_on = true ∧
    (toggle_timed_heat 1 get_default_room_state).timed_heat_remaining_seconds = 1 * 60 ∧
    (tick_room_iter 0 false (fun _ => (0, 0)) 60
        (toggle_timed_heat 1 get_default_room_state)).map
      (fun x => (x.timed_heat_active, x.heat_on, x.timed_heat_remaining_seconds)) =
    .ok (decide (((60 : ℕ) : ℤ) < 1 * 60), decide (((60 : ℕ) : ℤ) < 1 * 60),
         1 * 60 - ((60 : ℕ) : ℤ)) :=
  C6_timed_heat_lifecycle get_default_room_state 1 0 false (fun _ => (0, 0)) 60
    rfl rfl rfl rfl (by norm_num) (by norm_num)

/-- C2 counterexample: the claim says a per-room failure is caught inside
the tick loop and the remaining rooms still get processed, but a malformed
start_time_iso in the first room makes the whole tick return the
propagated error, so the loop does throw out of a single room and aborts
the rest. -/
theorem C2_counterexample :
    tick_all 100 "Living Room" (fun _ => (0, 0))
      [("Kitchen", c2_bad_room), ("Bedroom", get_default_room_state)] =
    .error "ValueError" := by decide

/-- C2 amended: the tick loop has no per-room exception handling: an
unparsable timestamp on an untriggered event propagates out of the tick
and aborts the remaining rooms, and the tick completes for every room
exactly when every untriggered scheduled event of every room parses. -/
theorem C2_amended_no_exception_isolation (now : ℤ) (current : String)
    (noise : String → ℚ × ℚ) :
    ∀ states : List (String × RoomState),
      (∀ p ∈ states, events_parseable p.2) →
      exc_is_ok (tick_all now current noise states) = true := by
  intro states
  induction states with
  | nil => intro _; rfl
  | cons p rest ih =>
    intro hall
    obtain ⟨room_name, s⟩ := p
    obtain ⟨s1, hs1⟩ := process_scheduled_events_ok now s.scheduled_events.length s
      (hall (room_name, s) (by simp))
    have htick : tick_room now (room_name = current) (noise room_name).1
        (noise room_name).2 s =
        .ok (apply_climate (room_name = current) (noise room_name).1
          (noise room_name).2 (process_timers s1)) := by
      unfold tick_room
      rw [hs1]
    have ihres := ih (fun q hq => hall q (List.mem_cons_of_mem _ hq))
    conv_lhs => rw [tick_all]
    rw [htick]
    cases hrest : tick_all now current noise rest with
    | error msg =>
      rw [hrest] at ihres
      exact absurd ihres (by simp [exc_is_ok])
    | ok l => rfl

/-- C2 witness: a tick over two well-formed rooms completes. -/
theorem C2_amended_no_exception_isolation_witness :
    exc_is_ok (tick_all 0 "Kitchen" (fun _ => (0, 0))
      [("Kitchen", get_default_room_state), ("Bedroom", c4_room)]) = true :=
  C2_amended_no_exception_isolation 0 "Kitchen" (fun _ => (0, 0))
    [("Kitchen", get_default_room_state), ("Bedroom", c4_room)] (by
      intro p hp e he htr
      rcases List.mem_cons.mp hp with h | h
      · rw [h] at he
        simp [get_default_room_state] at he
      · rcases List.mem_cons.mp h with h2 | h2
        · rw [h2] at he
          simp [c4_room, get_default_room_state] at he
        · simp at h2)

/-- Helper: one step of the backwards event walk on an untriggered due
event: execute it, mark it triggered in place, and continue downward. -/
theorem process_step_exec (now : ℤ) (s : RoomState) (i : ℕ) (e : ScheduledEvent)
    (t : ℤ) (hg : s.scheduled_events.get? i = some e) (htr : e.triggered = false)
    (hp : fromisoformat e.start_time_iso = some t) (hdue : t ≤ now) :
    process_scheduled_events now s (i + 1) =
      process_scheduled_events now
        { execute_scheduled_event s e with
          scheduled_events := s.scheduled_events.set i { e with triggered := true } } i := by
  conv_lhs => rw [process_scheduled_events]
  rw [hg]
  simp [htr, hp, hdue, (execute_scheduled_event_preserves s e).1]

/-- C3 counterexample: with two untriggered events both due, the code
walks the list backwards, so the later event starts its 3 minute timed
heat first and the earlier 5 minute event is then skipped as conflicting,
leaving 180 seconds; processing the same room in original insertion order,
as the claim states, would leave 300 seconds. -/
theorem C3_counterexample :
    (process_scheduled_events 100 c3_room c3_room.scheduled_events.length).map
      (fun x => x.timed_heat_remaining_seconds) = .ok 180 ∧
    (tick_events_in_order 100 c3_room).timed_heat_remaining_seconds = 300 := by decide

/-- C3 amended: for a room with exactly two untriggered due events and no
active operation, the tick loop applies the due events in reverse
insertion order: the second event fires first (its duration wins) and the
first is then skipped as conflicting, while both end up marked
triggered. -/
theorem C3_amended_reverse_order (now t1 t2 d1 d2 : ℤ) (a1 a2 b1 b2 : String)
    (s : RoomState)
    (hev : s.scheduled_events =
      [{ start_time_iso := a1, action := "start_timed_heat",
         duration_minutes := some d1, triggered := false, description := b1 },
       { start_time_iso := a2, action := "start_timed_heat",
         duration_minutes := some d2, triggered := false, description := b2 }])
    (hp1 : fromisoformat a1 = some t1) (hd1 : t1 ≤ now)
    (hp2 : fromisoformat a2 = some t2) (hd2 : t2 ≤ now)
    (hh : s.heat_on = false) (ha : s.ac_boost_on = false) :
    process_scheduled_events now s s.scheduled_events.length =
      .ok { s with timed_heat_active := true, heat_on := true,
                   timed_heat_remaining_seconds := d2 * 60,
                   scheduled_events :=
                     [{ start_time_iso := a1, action := "start_timed_heat",
                        duration_minutes := some d1, triggered := true,
                        description := b1 },
                      { start_time_iso := a2, action := "start_timed_heat",
                        duration_minutes := some d2, triggered := true,
                        description := b2 }] } := by
  have hlen : s.scheduled_events.length = 1 + 1 := by rw [hev]; rfl
  rw [hlen]
  rw [process_step_exec now s 1 _ t2 (by rw [hev]; rfl) rfl hp2 hd2]
  have hex2 : execute_scheduled_event s
      { start_time_iso := a2, action := "start_timed_heat",
        duration_minutes := some d2, triggered := false, description := b2 } =
      { s with timed_heat_active := true,
               timed_heat_remaining_seconds := d2 * 60, heat_on := true } := by
    unfold execute_scheduled_event
    simp [hh, ha]
  rw [hex2, hev]
  show process_scheduled_events now
      ({ s with timed_heat_active := true,
                timed_heat_remaining_seconds := d2 * 60, heat_on := true,
                scheduled_events :=
                  [{ start_time_iso := a1, action := "start_timed_heat",
                     duration_minutes := some d1, triggered := false,
                     description := b1 },
                   { start_time_iso := a2, action := "start_timed_heat",
                     duration_minutes := some d2, triggered := true,
                     description := b2 }] } : RoomState) (0 + 1) = _
  rw [process_step_exec now
      ({ s with timed_heat_active := true,
                timed_heat_remaining_seconds := d2 * 60, heat_on := true,
                scheduled_events :=
                  [{ start_time_iso := a1, action := "start_timed_heat",
                     duration_minutes := some d1, triggered := false,
                     description := b1 },
                   { start_time_iso := a2, action := "start_timed_heat",
                     duration_minutes := some d2, triggered := true,
                     description := b2 }] } : RoomState) 0
      { start_time_iso := a1, action := "start_timed_heat",
        duration_minutes := some d1, triggered := false, description := b1 }
      t1 rfl rfl hp1 hd1]
  have hex1 : execute_scheduled_event
      ({ s with timed_heat_active := true,
                timed_heat_remaining_seconds := d2 * 60, heat_on := true,
                scheduled_events :=
                  [{ start_time_iso := a1, action := "start_timed_heat",
                     duration_minutes := some d1, triggered := false,
                     description := b1 },
                   { start_time_iso := a2, action := "start_timed_heat",
                     duration_minutes := some d2, triggered := true,
                     description := b2 }] } : RoomState)
      { start_time_iso := a1, action := "start_timed_heat",
        duration_minutes := some d1, triggered := false, description := b1 } =
      { s with timed_heat_active := true,
               timed_heat_remaining_seconds := d2 * 60, heat_on := true,
               scheduled_events :=
                 [{ start_time_iso := a1, action := "start_timed_heat",
                    duration_minutes := some d1, triggered := false,
                    description := b1 },
                  { start_time_iso := a2, action := "start_timed_heat",
                    duration_minutes := some d2, triggered := true,
                    description := b2 }] } := by
    unfold execute_scheduled_event
    simp
  rw [hex1]
  rfl

/-- C3 witness: the amended reverse-order result on the concrete two-event
room, with durations 5 and 3 minutes. -/
theorem C3_amended_reverse_order_witness :
    process_scheduled_events 100 c3_room c3_room.scheduled_events.length =
      .ok { c3_room with timed_heat_active := true, heat_on := true,
                         timed_heat_remaining_seconds := 3 * 60,
                         scheduled_events :=
                           [{ start_time_iso := "50", action := "start_timed_heat",
                              duration_minutes := some 5, triggered := true,
                              description := "A" },
                            { start_time_iso := "60", action := "start_timed_heat",
                              duration_minutes := some 3, triggered := true,
                              description := "B" }] } :=
  C3_amended_reverse_order 100 50 60 5 3 "50" "60" "A" "B" c3_room rfl
    (by decide) (by decide) (by decide) (by decide) rfl rfl

/-- Helper: a deque rebuild keeps a list that already fits the cap. -/
theorem deque_of_list_of_le {α : Type} (cap : ℕ) (l : List α) (h : l.length ≤ cap) :
    deque_of_list cap l = l := by
  unfold deque_of_list
  rw [Nat.sub_eq_zero_of_le h, List.drop_zero]

/-- Helper: deserialization undoes serialization of one room whose history
deques respect the cap. -/
theorem deserialize_serialize_room (s : RoomState)
    (h1 : s.time_data.length ≤ GRAPH_DATA_POINTS)
    (h2 : s.temp_data.length ≤ GRAPH_DATA_POINTS)
    (h3 : s.humidity_data.length ≤ GRAPH_DATA_POINTS) :
    deserialize_room (serialize_room s) = s := by
  unfold deserialize_room serialize_room
  rw [deque_of_list_of_le _ _ h1, deque_of_list_of_le _ _ h2, deque_of_list_of_le _ _ h3]

/-- Helper: loading the serialized collection restores every room when the
room names are distinct and the history deques respect the cap. -/
theorem load_serialize_room_states (states : List (String × RoomState))
    (hnd : (states.map Prod.fst).Nodup)
    (hb : ∀ p ∈ states, p.2.time_data.length ≤ GRAPH_DATA_POINTS ∧
       p.2.temp_data.length ≤ GRAPH_DATA_POINTS ∧
       p.2.humidity_data.length ≤ GRAPH_DATA_POINTS) :
    load_room_states (states.map Prod.fst) (serialize_room_states states) = states := by
  induction states with
  | nil => rfl
  | cons p rest ih =>
    obtain ⟨n, s⟩ := p
    rw [List.map_cons] at hnd
    have hnd' := List.nodup_cons.mp hnd
    have hblist := hb (n, s) (List.mem_cons_self _ _)
    have hhead : List.lookup n (serialize_room_states ((n, s) :: rest)) =
        some (serialize_room s) := by
      simp [serialize_room_states, List.lookup]
    have hskip : ∀ x : String, x ≠ n →
        List.lookup x (serialize_room_states ((n, s) :: rest)) =
        List.lookup x (serialize_room_states rest) := by
      intro x hx
      have hbeq : (x == n) = false := by
        cases hbe : x == n
        · rfl
        · exact absurd (eq_of_beq hbe) hx
      simp only [serialize_room_states, List.map_cons, List.lookup, hbeq]
    unfold load_room_states
    rw [List.map_cons, List.map_cons]
    congr 1
    · rw [hhead]
      show (n, deserialize_room (serialize_room s)) = (n, s)
      rw [deserialize_serialize_room s hblist.1 hblist.2.1 hblist.2.2]
    · have hcong : ∀ x ∈ rest.map Prod.fst,
          (x, match List.lookup x (serialize_room_states ((n, s) :: rest)) with
              | some doc => deserialize_room doc
              | none => get_default_room_state) =
          (x, match List.lookup x (serialize_room_states rest) with
              | some doc => deserialize_room doc
              | none => get_default_room_state) := by
        intro x hx
        have hxn : x ≠ n := fun hc => hnd'.1 (hc ▸ hx)
        rw [hskip x hxn]
      rw [List.map_congr_left hcong]
      exact ih hnd'.2 (fun q hq => hb q (List.mem_cons_of_mem _ hq))

/-- C7: loading the serialized snapshot of any collection of rooms with
distinct names restores every room exactly (control flags, timers,
schedule, history contents and order; in this exact model even the climate
values carry over unchanged), and deserializing a document whose history
is longer than the cap keeps exactly the most recent cap entries in
original order. -/
theorem C7_round_trip :
    (∀ states : List (String × RoomState),
       (states.map Prod.fst).Nodup →
       (∀ p ∈ states, p.2.time_data.length ≤ GRAPH_DATA_POINTS ∧
          p.2.temp_data.length ≤ GRAPH_DATA_POINTS ∧
          p.2.humidity_data.length ≤ GRAPH_DATA_POINTS) →
       load_room_states (states.map Prod.fst) (serialize_room_states states) = states) ∧
    (∀ doc : RoomDoc, GRAPH_DATA_POINTS ≤ doc.time_data.length →
       (deserialize_room doc).time_data.length = GRAPH_DATA_POINTS ∧
       doc.time_data.take (doc.time_data.length - GRAPH_DATA_POINTS) ++
         (deserialize_room doc).time_data = doc.time_data) ∧
    (∀ doc : RoomDoc, GRAPH_DATA_POINTS ≤ doc.temp_data.length →
       (deserialize_room doc).temp_data.length = GRAPH_DATA_POINTS ∧
       doc.temp_data.take (doc.temp_data.length - GRAPH_DATA_POINTS) ++
         (deserialize_room doc).temp_data = doc.temp_data) ∧
    (∀ doc : RoomDoc, GRAPH_DATA_POINTS ≤ doc.humidity_data.length →
       (deserialize_room doc).humidity_data.length = GRAPH_DATA_POINTS ∧
       doc.humidity_data.take (doc.humidity_data.length - GRAPH_DATA_POINTS) ++
         (deserialize_room doc).humidity_data = doc.humidity_data) := by
  refine ⟨load_serialize_room_states, ?_, ?_, ?_⟩ <;> intro doc h <;> constructor
  · show (deque_of_list GRAPH_DATA_POINTS doc.time_data).length = GRAPH_DATA_POINTS
    unfold deque_of_list
    rw [List.length_drop]
    omega
  · exact List.take_append_drop _ _
  · show (deque_of_list GRAPH_DATA_POINTS doc.temp_data).length = GRAPH_DATA_POINTS
    unfold deque_of_list
    rw [List.length_drop]
    omega
  · exact List.take_append_drop _ _
  · show (deque_of_list GRAPH_DATA_POINTS doc.humidity_data).length = GRAPH_DATA_POINTS
    unfold deque_of_list
    rw [List.length_drop]
    omega
  · exact List.take_append_drop _ _

/-- C7 witness: a one-room collection survives the round trip, and the
61-entry history document deserializes to its most recent 60 entries. -/
theorem C7_round_trip_witness :
    load_room_states ([("Kitchen", get_default_room_state)].map Prod.fst)
      (serialize_room_states [("Kitchen", get_default_room_state)]) =
      [("Kitchen", get_default_room_state)] ∧
    (deserialize_room c7_doc).time_data.length = GRAPH_DATA_POINTS ∧
    c7_doc.time_data.take (c7_doc.time_data.length - GRAPH_DATA_POINTS) ++
      (deserialize_room c7_doc).time_data = c7_doc.time_data :=
  ⟨C7_round_trip.1 [("Kitchen", get_default_room_state)] (by decide) (by decide),
   C7_round_trip.2.1 c7_doc (by decide)⟩

/-- Helper: the three-branch ambient drift computation equals the linear
pull toward the target. -/
theorem drift_eq (v tgt r c0 : ℚ) :
    (if v < tgt then c0 + r * pyabs (tgt - v) * 0.15
     else if tgt < v then c0 - r * pyabs (v - tgt) * 0.15 else c0) =
    c0 + r * (tgt - v) * 0.15 := by
  unfold pyabs
  rcases lt_trichotomy v tgt with h | h | h
  · rw [if_pos h, if_neg (show ¬(tgt - v < 0) by linarith)]
  · rw [if_neg (show ¬(v < tgt) by rw [h]; exact lt_irrefl tgt),
        if_neg (show ¬(tgt < v) by rw [h]; exact lt_irrefl tgt), h]
    ring
  · rw [if_neg (show ¬(v < tgt) by linarith), if_pos h,
        if_neg (show ¬(v - tgt < 0) by linarith)]
    ring

/-- C8: the per-tick temperature and humidity changes before clamping are
exactly the direct control effect plus the proportional ambient pull
rate * (target - value) * 0.15, with the background rates 0.02 and 0.04
for a non-viewed room and the viewed rates 0.05 and 0.1 plus the drawn
noise for the viewed room; the exclusivity hypothesis rules out the
unreachable state with both heat and AC flags set. -/
theorem C8_drift_formula (s : RoomState) (nt nh : ℚ)
    (hex : ¬(s.heat_on = true ∧ s.ac_boost_on = true)) :
    temp_change false nt s =
      (if s.heat_on = true then HEAT_RATE
       else if s.ac_boost_on = true then -COOL_RATE_AC else 0) +
      BACKGROUND_AMBIENT_DRIFT_RATE_TEMP * (AMBIENT_TEMP_TARGET - s.temp) * 0.15 ∧
    humidity_change false nh s =
      (if s.ac_boost_on = true then -AC_HUMIDITY_REDUCTION_RATE else 0) +
      BACKGROUND_AMBIENT_DRIFT_RATE_HUMIDITY *
        (AMBIENT_HUMIDITY_TARGET - s.humidity) * 0.15 ∧
    temp_change true nt s =
      (if s.heat_on = true then HEAT_RATE
       else if s.ac_boost_on = true then -COOL_RATE_AC else 0) +
      AMBIENT_DRIFT_RATE_TEMP * (AMBIENT_TEMP_TARGET - s.temp) * 0.15 + nt ∧
    humidity_change true nh s =
      (if s.ac_boost_on = true then -AC_HUMIDITY_REDUCTION_RATE else 0) +
      AMBIENT_DRIFT_RATE_HUMIDITY *
        (AMBIENT_HUMIDITY_TARGET - s.humidity) * 0.15 + nh := by
  refine ⟨?_, ?_, ?_, ?_⟩
  all_goals
    first
      | unfold temp_change
      | unfold humidity_change
  all_goals simp only [Bool.false_eq_true, if_false, if_true, eq_self_iff_true]
  all_goals rw [drift_eq]
  all_goals
    split_ifs <;> first
      | ring1
      | exact (hex (And.intro (by assumption) (by assumption))).elim

/-- C8 witness: the drift formula instantiated at a heating room at 30
degrees and 60 percent humidity with concrete noise draws. -/
theorem C8_drift_formula_witness :
    temp_change false (1 / 100) c8_room =
      (if c8_room.heat_on = true then HEAT_RATE
       else if c8_room.ac_boost_on = true then -COOL_RATE_AC else 0) +
      BACKGROUND_AMBIENT_DRIFT_RATE_TEMP * (AMBIENT_TEMP_TARGET - c8_room.temp) * 0.15 ∧
    humidity_change false (1 / 50) c8_room =
      (if c8_room.ac_boost_on = true then -AC_HUMIDITY_REDUCTION_RATE else 0) +
      BACKGROUND_AMBIENT_DRIFT_RATE_HUMIDITY *
        (AMBIENT_HUMIDITY_TARGET - c8_room.humidity) * 0.15 ∧
    temp_change true (1 / 100) c8_room =
      (if c8_room.heat_on = true then HEAT_RATE
       else if c8_room.ac_boost_on = true then -COOL_RATE_AC else 0) +
      AMBIENT_DRIFT_RATE_TEMP * (AMBIENT_TEMP_TARGET - c8_room.temp) * 0.15 + 1 / 100 ∧
    humidity_change true (1 / 50) c8_room =
      (if c8_room.ac_boost_on = true then -AC_HUMIDITY_REDUCTION_RATE else 0) +
      AMBIENT_DRIFT_RATE_HUMIDITY *
        (AMBIENT_HUMIDITY_TARGET - c8_room.humidity) * 0.15 + 1 / 50 :=
  C8_drift_formula c8_room (1 / 100) (1 / 50) (by decide)

end ClimateControl
